import Mathlib

/-!
Shallow embedding of the SvelteKit authentication template:
the `AuthService` database layer (`src/lib/db/database.ts`) and the
`login` / `signup` form actions (`src/routes/(marketing)/login/+page.server.ts`).

The SQLite store is modelled as lists of rows.  The schema (the
`CREATE TABLE` statements are not part of the sources; the README records
`users.email UNIQUE`, `users.id PRIMARY KEY`, `cookie.id PRIMARY KEY`) uses
SQLite's default BINARY collation on text columns, so `WHERE email = ?`
is an exact, case-sensitive comparison; the spec (section 3) states that
case-insensitivity is enforced by lower-casing emails in the handlers, not
by the store.  A statement executed by better-sqlite3 either returns an
affected-row count or raises on a constraint violation; statements are
therefore embedded in `Except String`, with `Except.error` standing for a
thrown storage exception.
-/

/-- `UserRecord` from `src/lib/types.ts`: a stored row of the `users` table. -/
structure UserRecord where
  id : Nat
  firstName : String
  lastName : String
  email : String
  hashedPassword : String
deriving Repr, DecidableEq

/-- `BaseUserRecord` from `src/lib/types.ts`: a user record before insertion
(no generated id). -/
structure BaseUserRecord where
  firstName : String
  lastName : String
  email : String
  hashedPassword : String
deriving Repr, DecidableEq

/-- The `cookie` type from `src/lib/types.ts`: a stored session row. -/
structure CookieRecord where
  id : String
  userID : Nat
  expireTime : Nat
deriving Repr, DecidableEq

/-- `DatabaseResponse` from `src/lib/types.ts`. -/
structure DatabaseResponse where
  success : Bool
  message : String
deriving Repr, DecidableEq

/-- `DatabaseDataResponse<T>` from `src/lib/types.ts`: a discriminated union
on `success`, carrying `data` only in the successful case. -/
inductive DatabaseDataResponse (α : Type) where
  | found (message : String) (data : α)
  | missing (message : String)
deriving Repr, DecidableEq

/-- The `success` field of a `DatabaseDataResponse`. -/
def DatabaseDataResponse.isSuccess : DatabaseDataResponse α → Bool
  | .found _ _ => true
  | .missing _ => false

/-- The persistent state behind the singleton connection: the `users` and
`cookie` tables, plus the next autoincrement id for `users.id`. -/
structure AuthState where
  users : List UserRecord
  cookies : List CookieRecord
  nextUserId : Nat
deriving Repr, DecidableEq

/-- `Insert into users ...`: better-sqlite3 `run` on the insert statement.
Raises (UNIQUE constraint on `email`, BINARY collation: exact match) or
returns the affected-row count together with the new state. -/
def usersInsertRun (st : AuthState) (u : BaseUserRecord) :
    Except String (Nat × AuthState) :=
  if st.users.any (fun r => r.email == u.email) then
    .error "UNIQUE constraint failed: users.email"
  else
    .ok (1, { st with
      users := st.users ++
        [⟨st.nextUserId, u.firstName, u.lastName, u.email, u.hashedPassword⟩],
      nextUserId := st.nextUserId + 1 })

/-- `Select * from users WHERE email = ?` followed by `get`: the first row
whose `email` column equals the bound parameter exactly (BINARY collation). -/
def usersSelectByEmail (st : AuthState) (email : String) : Option UserRecord :=
  st.users.find? (fun u => u.email == email)

/-- `AuthService.getUserByEmail` (`database.ts` lines 74-89). -/
def getUserByEmail (st : AuthState) (email : String) :
    DatabaseDataResponse UserRecord :=
  match usersSelectByEmail st email with
  | some result => .found "User was retrieved successfully" result
  | none => .missing "Could not find user"

/-- `AuthService.createUser` (`database.ts` lines 45-67). -/
def createUser (st : AuthState) (user : BaseUserRecord) :
    Except String (DatabaseResponse × AuthState) :=
  let existingUser := getUserByEmail st user.email
  if existingUser.isSuccess then
    .ok ({ success := false, message := "Email already in use" }, st)
  else
    match usersInsertRun st user with
    | .ok (changes, st2) =>
        if changes == 1 then
          .ok ({ success := true, message := "User was created successfully" }, st2)
        else
          .ok ({ success := false, message := "User creation failed" }, st2)
    | .error e => .error e

/-- The creation TTL used by `createCookie`: `60 * 60 * 1000` milliseconds. -/
def creationTTLMillis : Nat := 60 * 60 * 1000

/-- The refresh TTL used by `updateCookie`: `1000 * 30 * 60` milliseconds. -/
def refreshTTLMillis : Nat := 1000 * 30 * 60

/-- `Insert into cookie ...`: better-sqlite3 `run` on the insert statement.
Raises (PRIMARY KEY constraint on `id`) or returns the affected-row count. -/
def cookieInsertRun (st : AuthState) (c : CookieRecord) :
    Except String (Nat × AuthState) :=
  if st.cookies.any (fun r => r.id == c.id) then
    .error "UNIQUE constraint failed: cookie.id"
  else
    .ok (1, { st with cookies := st.cookies ++ [c] })

/-- `AuthService.createCookie` (`database.ts` lines 97-116); `now` is the
value of `Date.now()` at the call. -/
def createCookie (st : AuthState) (cookieID : String) (userID : Nat)
    (now : Nat) : Except String (DatabaseResponse × AuthState) :=
  match cookieInsertRun st ⟨cookieID, userID, now + 60 * 60 * 1000⟩ with
  | .ok (changes, st2) =>
      if changes == 1 then
        .ok ({ success := true, message := "Successful cookie creation" }, st2)
      else
        .ok ({ success := false, message := "Failed cookie creation" }, st2)
  | .error e => .error e

/-- `DELETE FROM cookie WHERE id = ?`: better-sqlite3 `run`; the affected-row
count is the number of rows matching the id; a delete raises no constraint. -/
def cookieDeleteRun (st : AuthState) (id : String) :
    Except String (Nat × AuthState) :=
  .ok ((st.cookies.filter (fun c => c.id == id)).length,
    { st with cookies := st.cookies.filter (fun c => !(c.id == id)) })

/-- `AuthService.removeCookie` (`database.ts` lines 123-138). -/
def removeCookie (st : AuthState) (id : String) :
    Except String (DatabaseResponse × AuthState) :=
  match cookieDeleteRun st id with
  | .ok (changes, st2) =>
      if changes == 1 then
        .ok ({ success := true, message := "Successful cookie deletion" }, st2)
      else
        .ok ({ success := false, message := "Failed cookie deletion" }, st2)
  | .error e => .error e

/-- `AuthService.getCookie` (`database.ts` lines 145-161). -/
def getCookie (st : AuthState) (userID : String) :
    DatabaseDataResponse CookieRecord :=
  match st.cookies.find? (fun c => c.id == userID) with
  | some result => .found "Found cookie successfully" result
  | none => .missing "Failed to find cookie"

/-- `Update cookie SET expireTime = ? WHERE id = ?`: better-sqlite3 `run`;
the affected-row count is the number of rows matching the id. -/
def cookieUpdateRun (st : AuthState) (expireTime : Nat) (id : String) :
    Except String (Nat × AuthState) :=
  .ok ((st.cookies.filter (fun c => c.id == id)).length,
    { st with cookies := st.cookies.map (fun c =>
        if c.id == id then { c with expireTime := expireTime } else c) })

/-- `AuthService.updateCookie` (`database.ts` lines 168-184); `now` is the
value of `Date.now()` at the call. -/
def updateCookie (st : AuthState) (cookieID : String) (now : Nat) :
    Except String (DatabaseResponse × AuthState) :=
  match cookieUpdateRun st (now + 1000 * 30 * 60) cookieID with
  | .ok (changes, st2) =>
      if changes == 1 then
        .ok ({ success := true, message := "Updated cookie successfully" }, st2)
      else
        .ok ({ success := false, message := "Failed to update cookie" }, st2)
  | .error e => .error e

/-!
The form actions of `src/routes/(marketing)/login/+page.server.ts`.
External collaborators are embedded by their interface:
`argon2.verify` is an arbitrary boolean verifier passed as a parameter,
`argon2.hash` an arbitrary hashing function, and the random token drawn by
`generateRandomString` enters `login` as the parameter `tok`.
-/

/-- JavaScript `String.prototype.toLowerCase` as used on the ASCII emails of
this template: lower-cases each character. -/
def jsToLower (s : String) : String := ⟨s.data.map Char.toLower⟩

/-- A `cookies.set(name, value, { path })` call recorded by the handler. -/
structure SetCookie where
  name : String
  value : String
  path : String
deriving Repr, DecidableEq

/-- The HTTP-visible outcome of a form action: a `redirect(status, location)`,
a `fail(status, { error })` payload, or the implicit success of an action
that returns nothing. -/
inductive ActionResponse where
  | redirect (status : Nat) (location : String)
  | fail (status : Nat) (error : String)
  | done
deriving Repr, DecidableEq

/-- What a form action does to the client: the cookies it sets and the
response it produces. -/
structure ActionOutcome where
  cookiesSet : List SetCookie
  response : ActionResponse
deriving Repr, DecidableEq

/-- The tail of the `login` action after `createCookie` returns (lines 54-55
of `+page.server.ts`): the handler never reads the `DatabaseResponse`, it
unconditionally sets the `sessionID` cookie and throws the redirect. -/
def loginFinish (tok : String) (r : DatabaseResponse × AuthState) :
    ActionOutcome × AuthState :=
  ({ cookiesSet := [⟨"sessionID", tok, "/"⟩],
     response := .redirect 302 "/home" }, r.2)

/-- The `login` action (`+page.server.ts` lines 43-62).  `verify` stands for
`argon2.verify`, `tok` for the string drawn by `generateRandomString`, and
`now` for `Date.now()` inside `createCookie`. -/
def login (verify : String → String → Bool) (tok : String) (now : Nat)
    (st : AuthState) (email password : String) :
    Except String (ActionOutcome × AuthState) :=
  let user := getUserByEmail st (jsToLower email)
  match user with
  | .found _ data =>
      if verify data.hashedPassword password then
        match createCookie st tok data.id now with
        | .ok r => .ok (loginFinish tok r)
        | .error e => .error e
      else
        .ok ({ cookiesSet := [],
               response := .fail 422 "Incorrect username or password" }, st)
  | .missing _ =>
      .ok ({ cookiesSet := [],
             response := .fail 422 "Incorrect username or password" }, st)

/-- The `signup` action (`+page.server.ts` lines 72-94).  `hash` stands for
`argon2.hash` with its fixed options. -/
def signup (hash : String → String) (st : AuthState)
    (email password firstName lastName : String) :
    Except String (ActionOutcome × AuthState) :=
  let passwordHash := hash password
  let newUserData : BaseUserRecord :=
    { firstName := firstName, lastName := lastName,
      email := jsToLower email, hashedPassword := passwordHash }
  match createUser st newUserData with
  | .ok (result, st2) =>
      if !result.success then
        .ok ({ cookiesSet := [], response := .fail 422 result.message }, st2)
      else
        .ok ({ cookiesSet := [], response := .done }, st2)
  | .error e => .error e

/-- The contract of `generateRandomString` from `@oslojs/crypto/random`
(an external collaborator): each of `len` output characters is drawn from
`alphabet`, the draws given by the random source `pick` (rejection sampling
makes each draw a uniform index into the alphabet; `pick i % alphabet.length`
is the index drawn for position `i`). -/
def generateRandomString (pick : Nat → Nat) (alphabet : List Char)
    (len : Nat) : List Char :=
  (List.range len).map (fun i => alphabet.getD (pick i % alphabet.length) 'A')

/-- The alphabet passed at the call site (`+page.server.ts` line 52). -/
def loginAlphabet : List Char := "ABCDEFGHIJKLMNOPQRSTUVWXYZ".toList

/-- The session token drawn on login:
`generateRandomString(random, 'ABCDEFGHIJKLMNOPQRSTUVWXYZ', 20)`. -/
def loginSessionToken (pick : Nat → Nat) : List Char :=
  generateRandomString pick loginAlphabet 20

/-!
Concrete fixtures used by witnesses and counterexamples.
-/

/-- A stored user row (email stored lower-cased, as the signup path does). -/
def demoUser : UserRecord := ⟨1, "Jane", "Doe", "a@b.com", "hash1"⟩

/-- A store holding exactly `demoUser` and no sessions. -/
def demoState : AuthState := ⟨[demoUser], [], 2⟩

/-- A stored session row. -/
def demoCookie : CookieRecord := ⟨"TOKEN", 1, 1000⟩

/-- A store holding `demoUser` and the session `demoCookie`. -/
def demoCookieState : AuthState := ⟨[demoUser], [demoCookie], 2⟩

/-- An empty store. -/
def emptyState : AuthState := ⟨[], [], 1⟩

/-- C2: a login attempt whose email resolves to no stored user and a login
attempt whose email resolves to a stored user but whose password fails
verification produce the identical observable outcome: a `fail 422` response
carrying the message `Incorrect username or password`, with the store left
unchanged; the two failure causes cannot be distinguished from the result. -/
theorem login_failure_uniform (verify : String → String → Bool)
    (st : AuthState) (e1 p1 e2 p2 tok1 tok2 : String) (now1 now2 : Nat)
    (u : UserRecord)
    (h1 : usersSelectByEmail st (jsToLower e1) = none)
    (h2 : usersSelectByEmail st (jsToLower e2) = some u)
    (h3 : verify u.hashedPassword p2 = false) :
    login verify tok1 now1 st e1 p1 =
      .ok ({ cookiesSet := [],
             response := .fail 422 "Incorrect username or password" }, st) ∧
    login verify tok2 now2 st e2 p2 =
      .ok ({ cookiesSet := [],
             response := .fail 422 "Incorrect username or password" }, st) ∧
    login verify tok1 now1 st e1 p1 = login verify tok2 now2 st e2 p2 := by
  refine ⟨?_, ?_, ?_⟩ <;>
    simp [login, getUserByEmail, h1, h2, h3]

/-- C2 witness: the two failure causes on a concrete store. -/
theorem login_failure_uniform_witness :
    login (fun _ _ => false) "T1" 0 demoState "x@y.com" "p1" =
      .ok ({ cookiesSet := [],
             response := .fail 422 "Incorrect username or password" },
           demoState) ∧
    login (fun _ _ => false) "T2" 7 demoState "A@B.com" "p2" =
      .ok ({ cookiesSet := [],
             response := .fail 422 "Incorrect username or password" },
           demoState) ∧
    login (fun _ _ => false) "T1" 0 demoState "x@y.com" "p1" =
      login (fun _ _ => false) "T2" 7 demoState "A@B.com" "p2" :=
  login_failure_uniform (fun _ _ => false) demoState "x@y.com" "p1"
    "A@B.com" "p2" "T1" "T2" 0 7 demoUser (by decide) (by decide) rfl

/-- C4: creating a session at time `now` stores expiry `now + 1 hour`,
which is strictly after `now` and at most the creation TTL past it. -/
theorem createCookie_ttl (st : AuthState) (cid : String) (uid now : Nat)
    (hfresh : st.cookies.any (fun r => r.id == cid) = false) :
    createCookie st cid uid now =
      .ok ({ success := true, message := "Successful cookie creation" },
           { st with cookies :=
               st.cookies ++ [⟨cid, uid, now + creationTTLMillis⟩] }) ∧
    creationTTLMillis = 60 * 60 * 1000 ∧
    now < now + creationTTLMillis ∧
    now + creationTTLMillis ≤ now + creationTTLMillis := by
  refine ⟨?_, rfl, by simp [creationTTLMillis], le_refl _⟩
  simp [createCookie, cookieInsertRun, hfresh, creationTTLMillis]

/-- C4 witness: session creation on a concrete store. -/
theorem createCookie_ttl_witness :
    createCookie demoState "TOK" 1 500 =
      .ok ({ success := true, message := "Successful cookie creation" },
           { demoState with cookies :=
               demoState.cookies ++ [⟨"TOK", 1, 500 + creationTTLMillis⟩] }) ∧
    creationTTLMillis = 60 * 60 * 1000 ∧
    500 < 500 + creationTTLMillis ∧
    500 + creationTTLMillis ≤ 500 + creationTTLMillis :=
  createCookie_ttl demoState "TOK" 1 500 (by decide)

/-- C7: when the (lower-cased) email resolves to a stored user and the
password verifies against the stored hash, the login action stores a new
session for that user, sets exactly the one cookie
`sessionID = token` with path `/`, and responds with a redirect. -/
theorem login_success_redirect_cookie (verify : String → String → Bool)
    (tok : String) (now : Nat) (st : AuthState) (e p : String)
    (u : UserRecord)
    (hu : usersSelectByEmail st (jsToLower e) = some u)
    (hv : verify u.hashedPassword p = true)
    (hfresh : st.cookies.any (fun r => r.id == tok) = false) :
    login verify tok now st e p =
      .ok ({ cookiesSet := [⟨"sessionID", tok, "/"⟩],
             response := .redirect 302 "/home" },
           { st with cookies :=
               st.cookies ++ [⟨tok, u.id, now + creationTTLMillis⟩] }) := by
  simp [login, getUserByEmail, hu, hv, createCookie, cookieInsertRun,
    hfresh, loginFinish, creationTTLMillis]

/-- C7 witness: a successful login on a concrete store. -/
theorem login_success_redirect_cookie_witness :
    login (fun h p => h == "hash1" && p == "pw") "TOK" 5 demoState
        "A@B.com" "pw" =
      .ok ({ cookiesSet := [⟨"sessionID", "TOK", "/"⟩],
             response := .redirect 302 "/home" },
           { demoState with cookies :=
               demoState.cookies ++ [⟨"TOK", 1, 5 + creationTTLMillis⟩] }) :=
  login_success_redirect_cookie (fun h p => h == "hash1" && p == "pw")
    "TOK" 5 demoState "A@B.com" "pw" demoUser (by decide) (by decide)
    (by decide)

/-- C10: the tail of the login action after `createCookie` never inspects the
returned `DatabaseResponse`: even when the session-store write reports
failure, the handler still sets the `sessionID` cookie and redirects, its
client-visible outcome is independent of the store response, and when the
token is absent from the store the client is left holding a `sessionID`
cookie that `getCookie` cannot resolve. -/
theorem login_ignores_create_result (tok : String) (st2 : AuthState)
    (resp : DatabaseResponse) (_hfail : resp.success = false)
    (habsent : ∀ c ∈ st2.cookies, c.id ≠ tok) :
    loginFinish tok (resp, st2) =
      ({ cookiesSet := [⟨"sessionID", tok, "/"⟩],
         response := .redirect 302 "/home" }, st2) ∧
    (∀ (resp2 : DatabaseResponse) (st3 : AuthState),
        (loginFinish tok (resp2, st3)).1 = (loginFinish tok (resp, st2)).1) ∧
    getCookie st2 tok = .missing "Failed to find cookie" := by
  refine ⟨rfl, fun _ _ => rfl, ?_⟩
  unfold getCookie
  have hnone : st2.cookies.find? (fun c => c.id == tok) = none := by
    rw [List.find?_eq_none]
    intro c hc
    simpa using habsent c hc
  rw [hnone]

/-- C10 witness: a failed store write still yields cookie plus redirect. -/
theorem login_ignores_create_result_witness :
    loginFinish "TOK" ({ success := false, message := "Failed cookie creation" }, demoState) =
      ({ cookiesSet := [⟨"sessionID", "TOK", "/"⟩],
         response := .redirect 302 "/home" }, demoState) ∧
    (∀ (resp2 : DatabaseResponse) (st3 : AuthState),
        (loginFinish "TOK" (resp2, st3)).1 =
          (loginFinish "TOK" ({ success := false, message := "Failed cookie creation" }, demoState)).1) ∧
    getCookie demoState "TOK" = .missing "Failed to find cookie" :=
  login_ignores_create_result "TOK" demoState
    { success := false, message := "Failed cookie creation" } rfl
    (by decide)

/-- `createUser` never touches the `cookie` table. -/
theorem createUser_cookies_unchanged (st : AuthState) (u : BaseUserRecord)
    (res : DatabaseResponse) (st2 : AuthState)
    (h : createUser st u = .ok (res, st2)) : st2.cookies = st.cookies := by
  unfold createUser usersInsertRun at h
  by_cases h1 : (getUserByEmail st u.email).isSuccess
  · simp [h1] at h
    rw [← h.2]
  · by_cases h2 : st.users.any (fun r => r.email == u.email)
    · simp [h1, h2] at h
    · simp [h1, h2] at h
      rw [← h.2]

/-- C9: whatever its outcome, the signup action creates no session and sets
no cookie: the session store and the cookies sent to the client are exactly
as before. -/
theorem signup_sets_no_session (hash : String → String) (st : AuthState)
    (e p fn ln : String) (out : ActionOutcome) (st2 : AuthState)
    (h : signup hash st e p fn ln = .ok (out, st2)) :
    st2.cookies = st.cookies ∧ out.cookiesSet = [] := by
  simp only [signup] at h
  cases hc : createUser st
      { firstName := fn, lastName := ln, email := jsToLower e,
        hashedPassword := hash p } with
  | ok r =>
      rw [hc] at h
      by_cases hres : !r.1.success
      · simp [hres] at h
        exact ⟨h.2 ▸ createUser_cookies_unchanged st _ r.1 r.2 (by rw [hc]),
          by rw [← h.1]⟩
      · simp [hres] at h
        exact ⟨h.2 ▸ createUser_cookies_unchanged st _ r.1 r.2 (by rw [hc]),
          by rw [← h.1]⟩
  | error e2 =>
      rw [hc] at h
      cases h

/-- C9 witness: a concrete signup leaves the session store and the client
cookies untouched. -/
theorem signup_sets_no_session_witness :
    (⟨[demoUser, ⟨2, "J", "D", "new@mail.com", "H"⟩], [], 3⟩ : AuthState).cookies
        = demoState.cookies ∧
    ({ cookiesSet := [], response := .done } : ActionOutcome).cookiesSet = [] :=
  signup_sets_no_session (fun _ => "H") demoState "New@Mail.com" "pw" "J" "D"
    { cookiesSet := [], response := .done }
    ⟨[demoUser, ⟨2, "J", "D", "new@mail.com", "H"⟩], [], 3⟩ rfl

/-- C5: refreshing an existing session stamps its expiry to
`now + 30 minutes` (`1000 * 30 * 60` milliseconds) and reports success; the
refresh TTL differs from the one-hour TTL stamped at session creation. -/
theorem updateCookie_refresh_ttl (st : AuthState) (cid : String) (now : Nat)
    (hone : (st.cookies.filter (fun c => c.id == cid)).length = 1) :
    (∃ st2, updateCookie st cid now =
        .ok ({ success := true, message := "Updated cookie successfully" }, st2) ∧
      (∃ c ∈ st2.cookies, c.id = cid ∧ c.expireTime = now + refreshTTLMillis) ∧
      (∀ c ∈ st2.cookies, c.id = cid → c.expireTime = now + refreshTTLMillis)) ∧
    refreshTTLMillis = 1000 * 30 * 60 ∧
    creationTTLMillis = 60 * 60 * 1000 ∧
    refreshTTLMillis ≠ creationTTLMillis := by
  refine ⟨?_, rfl, rfl, by decide⟩
  refine ⟨{ st with cookies := st.cookies.map (fun c =>
      if c.id == cid then { c with expireTime := now + 1000 * 30 * 60 } else c) },
    ?_, ?_, ?_⟩
  · simp [updateCookie, cookieUpdateRun, hone]
  · obtain ⟨a, ha⟩ := List.length_eq_one.1 hone
    have hmem : a ∈ st.cookies.filter (fun c => c.id == cid) := by
      rw [ha]; exact List.mem_singleton.2 rfl
    obtain ⟨hmem2, hid⟩ := List.mem_filter.1 hmem
    refine ⟨{ a with expireTime := now + 1000 * 30 * 60 }, ?_, ?_, ?_⟩
    · have := List.mem_map_of_mem (fun c =>
        if c.id == cid then { c with expireTime := now + 1000 * 30 * 60 } else c) hmem2
      simpa [hid] using this
    · simpa using (beq_iff_eq.1 hid)
    · rfl
  · intro c hc hcid
    obtain ⟨a, ha2, rfl⟩ := List.mem_map.1 hc
    by_cases hb : a.id == cid
    · simp [hb, refreshTTLMillis]
    · rw [if_neg (by simpa using hb)] at hcid ⊢
      exact absurd (beq_iff_eq.2 hcid) hb

/-- C5 witness: refreshing the concrete stored session. -/
theorem updateCookie_refresh_ttl_witness :
    (∃ st2, updateCookie demoCookieState "TOKEN" 100 =
        .ok ({ success := true, message := "Updated cookie successfully" }, st2) ∧
      (∃ c ∈ st2.cookies, c.id = "TOKEN" ∧ c.expireTime = 100 + refreshTTLMillis) ∧
      (∀ c ∈ st2.cookies, c.id = "TOKEN" → c.expireTime = 100 + refreshTTLMillis)) ∧
    refreshTTLMillis = 1000 * 30 * 60 ∧
    creationTTLMillis = 60 * 60 * 1000 ∧
    refreshTTLMillis ≠ creationTTLMillis :=
  updateCookie_refresh_ttl demoCookieState "TOKEN" 100 (by decide)

/-- C6: the session token drawn on login
(`generateRandomString(random, 'ABCDEFGHIJKLMNOPQRSTUVWXYZ', 20)`) always has
exactly 20 characters, each from the 26-letter alphabet of 26 distinct
symbols; every 20-character string over that alphabet is attainable, and the
resulting guessing space satisfies `26 ^ 20 ≥ 2 ^ 94` (at least 94 bits). -/
theorem login_token_entropy :
    loginAlphabet.length = 26 ∧ loginAlphabet.Nodup ∧
    (∀ pick : Nat → Nat, (loginSessionToken pick).length = 20 ∧
        ∀ c ∈ loginSessionToken pick, c ∈ loginAlphabet) ∧
    (∀ s : List Char, s.length = 20 → (∀ c ∈ s, c ∈ loginAlphabet) →
        ∃ pick : Nat → Nat, loginSessionToken pick = s) ∧
    2 ^ 94 ≤ 26 ^ 20 := by
  have hpos : 0 < loginAlphabet.length := by decide
  refine ⟨by decide, by decide, ?_, ?_, by decide⟩
  · intro pick
    constructor
    · simp [loginSessionToken, generateRandomString]
    · intro c hc
      simp only [loginSessionToken, generateRandomString, List.mem_map] at hc
      obtain ⟨i, _, rfl⟩ := hc
      have hidx : pick i % loginAlphabet.length < loginAlphabet.length :=
        Nat.mod_lt _ hpos
      rw [List.getD_eq_getElem _ _ hidx]
      exact List.getElem_mem hidx
  · intro s hs20 hmem
    refine ⟨fun i => List.indexOf (s.getD i 'A') loginAlphabet, ?_⟩
    apply List.ext_getElem
    · simp [loginSessionToken, generateRandomString, hs20]
    · intro n h1 h2
      have hn : n < 20 := by
        simpa [loginSessionToken, generateRandomString] using h1
      simp only [loginSessionToken, generateRandomString, List.getElem_map,
        List.getElem_range]
      have hsel : s.getD n 'A' = s[n] := List.getD_eq_getElem s 'A' h2
      have hmem2 : s[n] ∈ loginAlphabet := hmem _ (List.getElem_mem h2)
      have hlt : List.indexOf s[n] loginAlphabet < loginAlphabet.length :=
        List.indexOf_lt_length.2 hmem2
      rw [hsel, Nat.mod_eq_of_lt hlt, List.getD_eq_getElem _ _ hlt]
      exact List.indexOf_get hlt

/-- C6 witness: a concrete draw and a concrete attainable token. -/
theorem login_token_entropy_witness :
    (loginSessionToken (fun _ => 0)).length = 20 ∧
    (∃ pick : Nat → Nat,
        loginSessionToken pick = "ABCDEFGHIJKLMNOPQRST".toList) :=
  ⟨(login_token_entropy.2.2.1 (fun _ => 0)).1,
   login_token_entropy.2.2.2.1 "ABCDEFGHIJKLMNOPQRST".toList
     (by decide) (by decide)⟩

/-- C1 counterexample: `demoUser` is stored with email `a@b.com`; the query
`A@b.com` equals it up to letter casing, yet `getUserByEmail` does not return
the user — the store lookup is an exact, case-sensitive match. -/
theorem getUserByEmail_case_exact_cex :
    demoUser ∈ demoState.users ∧
    jsToLower "A@b.com" = jsToLower demoUser.email ∧
    getUserByEmail demoState "A@b.com" = .missing "Could not find user" := by
  decide

/-- In a table whose emails are pairwise distinct, the first row matching a
stored email is that row. -/
theorem find_email_first (l : List UserRecord) (u : UserRecord)
    (hmem : u ∈ l) (hdistinct : l.Pairwise (fun a b => a.email ≠ b.email)) :
    l.find? (fun r => r.email == u.email) = some u := by
  induction l with
  | nil => cases hmem
  | cons h t ih =>
      rcases List.mem_cons.1 hmem with rfl | hmemt
      · exact List.find?_cons_of_pos _ (by simp)
      · have hne : h.email ≠ u.email :=
          (List.pairwise_cons.1 hdistinct).1 u hmemt
        rw [List.find?_cons_of_neg _ (by simpa using hne)]
        exact ih hmemt (List.pairwise_cons.1 hdistinct).2

/-- C1 (amended): `getUserByEmail` itself matches emails exactly; the
case-insensitive behavior belongs to the handlers, which lower-case the
email before both storage and lookup.  For a stored user whose email is
lower-cased (as signup guarantees) in a table of pairwise-distinct emails,
the login-path lookup `getUserByEmail(email.toLowerCase())` finds the user
for every query that equals the stored email up to letter casing. -/
theorem login_lookup_case_insensitive (st : AuthState) (u : UserRecord)
    (q : String) (hmem : u ∈ st.users)
    (hdistinct : st.users.Pairwise (fun a b => a.email ≠ b.email))
    (hstored : jsToLower u.email = u.email)
    (hq : jsToLower q = jsToLower u.email) :
    getUserByEmail st (jsToLower q) = .found "User was retrieved successfully" u := by
  unfold getUserByEmail usersSelectByEmail
  rw [hq, hstored, find_email_first st.users u hmem hdistinct]

/-- C1 witness: the mixed-case query `A@B.CoM` finds the user stored as
`a@b.com` through the lower-casing login path. -/
theorem login_lookup_case_insensitive_witness :
    getUserByEmail demoState (jsToLower "A@B.CoM") =
      .found "User was retrieved successfully" demoUser :=
  login_lookup_case_insensitive demoState demoUser "A@B.CoM" (by decide)
    (by decide) (by decide) (by decide)

/-- C3 counterexample: a user is stored as `a@b.com`; creating a user with
the case-variant email `A@b.com` does not fail with the duplicate-email
result — the duplicate check matches exactly, so a second row is inserted
and `createUser` reports success. -/
theorem createUser_case_variant_cex :
    (∃ r ∈ demoState.users, jsToLower r.email = jsToLower "A@b.com") ∧
    createUser demoState ⟨"John", "Smith", "A@b.com", "hash2"⟩ =
      .ok ({ success := true, message := "User was created successfully" },
        ⟨[demoUser, ⟨2, "John", "Smith", "A@b.com", "hash2"⟩], [], 3⟩) :=
  ⟨⟨demoUser, by decide, by decide⟩, rfl⟩

/-- When a row with exactly the new record's email exists, `createUser`
reports the duplicate and leaves the store unchanged. -/
theorem createUser_dup (st : AuthState) (u : BaseUserRecord) (r : UserRecord)
    (h : usersSelectByEmail st u.email = some r) :
    createUser st u =
      .ok ({ success := false, message := "Email already in use" }, st) := by
  simp [createUser, getUserByEmail, h, DatabaseDataResponse.isSuccess]

/-- When no row has exactly the new record's email, `createUser` inserts one
row and reports success. -/
theorem createUser_fresh (st : AuthState) (u : BaseUserRecord)
    (h : usersSelectByEmail st u.email = none) :
    createUser st u =
      .ok ({ success := true, message := "User was created successfully" },
        { st with
          users := st.users ++
            [⟨st.nextUserId, u.firstName, u.lastName, u.email, u.hashedPassword⟩],
          nextUserId := st.nextUserId + 1 }) := by
  have hany : st.users.any (fun r => r.email == u.email) = false :=
    List.any_eq_false.2 (List.find?_eq_none.1 h)
  simp [createUser, getUserByEmail, h, DatabaseDataResponse.isSuccess,
    usersInsertRun, hany]

/-- A signup whose lower-cased email is absent succeeds and stores the
lower-cased email. -/
theorem signup_fresh (hash : String → String) (st : AuthState)
    (e p fn ln : String)
    (h : usersSelectByEmail st (jsToLower e) = none) :
    signup hash st e p fn ln =
      .ok ({ cookiesSet := [], response := .done },
        { st with
          users := st.users ++ [⟨st.nextUserId, fn, ln, jsToLower e, hash p⟩],
          nextUserId := st.nextUserId + 1 }) := by
  simp only [signup]
  rw [createUser_fresh st ⟨fn, ln, jsToLower e, hash p⟩ h]
  simp

/-- A signup whose lower-cased email is already stored fails with the
store's duplicate message, leaving the store unchanged. -/
theorem signup_dup (hash : String → String) (st : AuthState)
    (e p fn ln : String) (r : UserRecord)
    (h : usersSelectByEmail st (jsToLower e) = some r) :
    signup hash st e p fn ln =
      .ok ({ cookiesSet := [],
             response := .fail 422 "Email already in use" }, st) := by
  simp only [signup]
  rw [createUser_dup st ⟨fn, ln, jsToLower e, hash p⟩ r h]
  simp

/-- C3 (amended): `createUser` rejects a new record exactly when a row with
the identical (case-sensitive) email string exists, and otherwise inserts
exactly one row and succeeds; the case-insensitive duplicate rejection holds
at the signup level, which lower-cases emails before storage and lookup: a
first signup with a fresh email succeeds and a second signup with the same
email in any casing fails with the duplicate message. -/
theorem createUser_duplicate_semantics :
    (∀ (st : AuthState) (u : BaseUserRecord) (r : UserRecord),
        usersSelectByEmail st u.email = some r →
        createUser st u =
          .ok ({ success := false, message := "Email already in use" }, st)) ∧
    (∀ (st : AuthState) (u : BaseUserRecord),
        usersSelectByEmail st u.email = none →
        createUser st u =
          .ok ({ success := true, message := "User was created successfully" },
            { st with
              users := st.users ++
                [⟨st.nextUserId, u.firstName, u.lastName, u.email,
                  u.hashedPassword⟩],
              nextUserId := st.nextUserId + 1 })) ∧
    (∀ (hash : String → String) (st : AuthState) (e p fn ln : String),
        usersSelectByEmail st (jsToLower e) = none →
        ∀ (e2 p2 fn2 ln2 : String), jsToLower e2 = jsToLower e →
        ∃ st2,
          signup hash st e p fn ln =
            .ok ({ cookiesSet := [], response := .done }, st2) ∧
          signup hash st2 e2 p2 fn2 ln2 =
            .ok ({ cookiesSet := [],
                   response := .fail 422 "Email already in use" }, st2)) := by
  refine ⟨createUser_dup, createUser_fresh, ?_⟩
  intro hash st e p fn ln hfresh e2 p2 fn2 ln2 hcase
  refine ⟨_, signup_fresh hash st e p fn ln hfresh, ?_⟩
  apply signup_dup hash _ e2 p2 fn2 ln2
    ⟨st.nextUserId, fn, ln, jsToLower e, hash p⟩
  unfold usersSelectByEmail
  rw [hcase]
  simp only [List.find?_append]
  rw [List.find?_eq_none.2 (fun x hx => List.find?_eq_none.1 hfresh x hx)]
  simp

/-- C3 witness: signup `A@B.com` on the empty store succeeds; a second
signup as `a@b.COM` fails with the duplicate message. -/
theorem createUser_duplicate_semantics_witness :
    ∃ st2,
      signup (fun _ => "H2") emptyState "A@B.com" "pw" "Jo" "Do" =
        .ok ({ cookiesSet := [], response := .done }, st2) ∧
      signup (fun _ => "H2") st2 "a@b.COM" "pw2" "X" "Y" =
        .ok ({ cookiesSet := [],
               response := .fail 422 "Email already in use" }, st2) :=
  createUser_duplicate_semantics.2.2 (fun _ => "H2") emptyState
    "A@B.com" "pw" "Jo" "Do" (by decide) "a@b.COM" "pw2" "X" "Y" (by decide)

/-- C8 counterexample: inserting a session whose id already exists violates
the primary key, so the better-sqlite3 `run` call raises instead of
returning any result: `createCookie` on a colliding id neither returns
success nor the generic failure response — it propagates the exception. -/
theorem createCookie_collision_cex :
    createCookie demoCookieState "TOKEN" 2 0 =
      .error "UNIQUE constraint failed: cookie.id" ∧
    ∀ (resp : DatabaseResponse) (st2 : AuthState),
      createCookie demoCookieState "TOKEN" 2 0 ≠ .ok (resp, st2) := by
  refine ⟨rfl, ?_⟩
  intro resp st2 h
  have h0 : createCookie demoCookieState "TOKEN" 2 0 =
      .error "UNIQUE constraint failed: cookie.id" := rfl
  rw [h0] at h
  exact Except.noConfusion h

/-- C8 (amended): for session delete and refresh the call always returns a
response, successful exactly when the affected-row count is `1`, and
otherwise a generic failure result with a diagnostic message; session
creation returns the success response whenever the id does not collide,
while a colliding id raises a storage error that `createCookie` does not
catch. -/
theorem store_write_result_semantics :
    (∀ (st : AuthState) (id : String),
        ∃ resp st2, removeCookie st id = .ok (resp, st2) ∧
          (resp.success = true ↔
            (st.cookies.filter (fun c => c.id == id)).length = 1) ∧
          (resp.success = false → resp.message = "Failed cookie deletion")) ∧
    (∀ (st : AuthState) (id : String) (now : Nat),
        ∃ resp st2, updateCookie st id now = .ok (resp, st2) ∧
          (resp.success = true ↔
            (st.cookies.filter (fun c => c.id == id)).length = 1) ∧
          (resp.success = false → resp.message = "Failed to update cookie")) ∧
    (∀ (st : AuthState) (cid : String) (uid now : Nat),
        st.cookies.any (fun r => r.id == cid) = false →
        ∃ st2, createCookie st cid uid now =
          .ok ({ success := true, message := "Successful cookie creation" },
            st2)) ∧
    (∀ (st : AuthState) (cid : String) (uid now : Nat),
        st.cookies.any (fun r => r.id == cid) = true →
        createCookie st cid uid now =
          .error "UNIQUE constraint failed: cookie.id") := by
  refine ⟨?_, ?_, ?_, ?_⟩
  · intro st id
    by_cases hc : (st.cookies.filter (fun c => c.id == id)).length = 1
    · refine ⟨⟨true, "Successful cookie deletion"⟩,
        { st with cookies := st.cookies.filter (fun c => !(c.id == id)) },
        ?_, ?_, ?_⟩
      · simp [removeCookie, cookieDeleteRun, hc]
      · simp [hc]
      · simp
    · refine ⟨⟨false, "Failed cookie deletion"⟩,
        { st with cookies := st.cookies.filter (fun c => !(c.id == id)) },
        ?_, ?_, ?_⟩
      · simp [removeCookie, cookieDeleteRun, hc]
      · simp [hc]
      · simp
  · intro st id now
    by_cases hc : (st.cookies.filter (fun c => c.id == id)).length = 1
    · refine ⟨⟨true, "Updated cookie successfully"⟩,
        { st with cookies := st.cookies.map (fun c =>
            if c.id == id then { c with expireTime := now + 1000 * 30 * 60 }
            else c) }, ?_, ?_, ?_⟩
      · simp [updateCookie, cookieUpdateRun, hc]
      · simp [hc]
      · simp
    · refine ⟨⟨false, "Failed to update cookie"⟩,
        { st with cookies := st.cookies.map (fun c =>
            if c.id == id then { c with expireTime := now + 1000 * 30 * 60 }
            else c) }, ?_, ?_, ?_⟩
      · simp [updateCookie, cookieUpdateRun, hc]
      · simp [hc]
      · simp
  · intro st cid uid now hfresh
    exact ⟨{ st with cookies :=
        st.cookies ++ [⟨cid, uid, now + 60 * 60 * 1000⟩] },
      by simp [createCookie, cookieInsertRun, hfresh]⟩
  · intro st cid uid now hhit
    simp [createCookie, cookieInsertRun, hhit]

/-- C8 witness: a fresh-id session insert succeeds; deleting a missing id
returns the generic failure response rather than raising. -/
theorem store_write_result_semantics_witness :
    (∃ st2, createCookie demoState "FRESH" 1 0 =
      .ok ({ success := true, message := "Successful cookie creation" },
        st2)) ∧
    (∃ resp st2, removeCookie demoState "MISSING" = .ok (resp, st2) ∧
      (resp.success = true ↔
        (demoState.cookies.filter (fun c => c.id == "MISSING")).length = 1) ∧
      (resp.success = false → resp.message = "Failed cookie deletion")) :=
  ⟨store_write_result_semantics.2.2.1 demoState "FRESH" 1 0 (by decide),
   store_write_result_semantics.1 demoState "MISSING"⟩
